import Mathlib

/-!
# Verification of the pgxhelper transaction-threading core

A shallow embedding of `theprogrammer67/pgxhelper`: a convenience layer over
`pgxpool` that threads transactions implicitly through request-scoped context
values.  Pure Go functions become Lean functions; calls into external
collaborators (pgx, pgxpool, scany, sqlset) become explicit functional
parameters or environment records describing the collaborator's outcome.
-/

namespace Pgxhelper

/-- Go error values as produced by this code base: either a base error from a
collaborator, or a `fmt.Errorf("pre%w", inner)` wrapper.  The message of a
wrapper is its textual prelude followed by the inner message. -/
inductive GoError where
  | base (msg : String)
  | wrap (pre : String) (inner : GoError)
deriving DecidableEq, Repr

/-- The `Error()` string of a Go error value. -/
def GoError.message : GoError → String
  | .base m => m
  | .wrap p e => p ++ e.message

/-- Go's `errors.Is`: the target is the error itself or is reachable by
unwrapping `fmt.Errorf("...%w", ...)` wrappers. -/
def errorsIs (e target : GoError) : Bool :=
  match e with
  | .base _ => e == target
  | .wrap _ inner => e == target || errorsIs inner target

/-- A transaction handle (`pgx.Tx`), identified abstractly. -/
abbrev Tx := Nat

/-- A connection pool (`*pgxpool.Pool`); it records the database name of the
configuration it was created from (`pool.Config().ConnConfig.Database`). -/
structure Pool where
  database : String
deriving DecidableEq, Repr

/-- A parsed connection configuration (`*pgxpool.Config`). -/
structure Config where
  database : String
deriving DecidableEq, Repr

/-- One link of a Go `context.Context` value chain: either the private
transaction entry stored under the unexported key `txKey{}` by `ctxWithTx`,
or an entry under any other key, which `ctx.Value(txKey{})` never matches. -/
inductive CtxEntry where
  | txEntry (t : Tx)
  | otherEntry (key val : Nat)
deriving DecidableEq, Repr

/-- A Go `context.Context`: an immutable chain of value entries, newest
first.  `context.WithValue` prepends; `Value` walks outward from the newest
entry and returns the first match. -/
abbrev Context := List CtxEntry

/-- `ctxWithTx` injects a transaction into a context
(`context.WithValue(ctx, txKey{}, tx)`). -/
def ctxWithTx (ctx : Context) (tx : Tx) : Context :=
  CtxEntry.txEntry tx :: ctx

/-- `ctxGetTx` extracts the transaction from a context, or `none`:
`ctx.Value(txKey{})` followed by the `pgx.Tx` type assertion. -/
def ctxGetTx : Context → Option Tx
  | [] => none
  | CtxEntry.txEntry t :: _ => some t
  | CtxEntry.otherEntry _ _ :: rest => ctxGetTx rest

/-- The `DBHelper` struct: owns at most one pool (`nil` before `Connect`). -/
structure DBHelper where
  pool : Option Pool
deriving DecidableEq, Repr

/-- The `Querier` interface value returned by the resolver: either the
helper's pool field or a transaction. -/
inductive Querier where
  | pool (p : Option Pool)
  | tx (t : Tx)
deriving DecidableEq, Repr

/-- `DBHelper.Querier`: returns the transaction carried by the context if
there is one, otherwise the helper's pool. -/
def DBHelper.Querier (d : DBHelper) (ctx : Context) : Querier :=
  match ctxGetTx ctx with
  | some t => .tx t
  | none => .pool d.pool

/-- `pgx.TxOptions`; the Go zero value has every field empty. -/
structure TxOptions where
  isoLevel : String
  accessMode : String
  deferrableMode : String
  beginQuery : String
  commitQuery : String
deriving DecidableEq, Repr

/-- The zero value `pgx.TxOptions{}` declared by `var txOpt pgx.TxOptions`. -/
def TxOptions.zero : TxOptions :=
  { isoLevel := "", accessMode := "", deferrableMode := "",
    beginQuery := "", commitQuery := "" }

/-- What became of the transaction a `WithinTransaction` call worked with. -/
inductive TxFate where
  | noTx
  | rolledBack
  | commitFailed
  | committed
deriving DecidableEq, Repr

/-- Outcomes of the database collaborator during one transactional run:
whether `BeginTx` fails, which fresh transaction handle it hands out on
success, and whether `Commit` / `Rollback` fail. -/
structure DBEnv where
  beginErr : Option GoError
  newTx : Tx
  commitErr : Option GoError
  rollbackErr : Option GoError

/-- Result of `WithinTransaction`: a panic, or a returned error value
together with the transaction's fate and the options `BeginTx` was given. -/
inductive RunResult where
  | panicked (msg : String)
  | returned (err : Option GoError) (fate : TxFate) (used : TxOptions)
deriving DecidableEq, Repr

/-- `DBHelper.requireNoTransaction`: the panic message raised when the
context already carries a transaction, `none` otherwise. -/
def DBHelper.requireNoTransaction (_d : DBHelper) (ctx : Context) :
    Option String :=
  match ctxGetTx ctx with
  | some _ => some "context already contains an unexpected transaction"
  | none => none

/-- Models the external collaborator `pgx.BeginTxFunc`: begins a transaction
with the given options (propagating a begin failure as is), runs the body on
the fresh transaction, rolls back and returns the body's error exactly if it
fails (a rollback failure is discarded), otherwise commits and returns the
commit call's error. -/
def pgxBeginTxFunc (env : DBEnv) (txOpt : TxOptions) (fn : Tx → Option GoError) :
    RunResult :=
  match env.beginErr with
  | some e => .returned (some e) .noTx txOpt
  | none =>
    match fn env.newTx with
    | some fErr => .returned (some fErr) .rolledBack txOpt
    | none =>
      match env.commitErr with
      | some e => .returned (some e) .commitFailed txOpt
      | none => .returned none .committed txOpt

/-- `DBHelper.WithinTransaction`: asserts the context carries no transaction,
selects the first supplied option value (zero value if none), and runs the
function via `pgx.BeginTxFunc` on a context carrying the new transaction. -/
def DBHelper.WithinTransaction (d : DBHelper) (env : DBEnv) (ctx : Context)
    (fn : Context → Option GoError) (opt : List TxOptions) : RunResult :=
  match d.requireNoTransaction ctx with
  | some msg => .panicked msg
  | none =>
    let txOpt := opt.headD TxOptions.zero
    pgxBeginTxFunc env txOpt (fun tx => fn (ctxWithTx ctx tx))

/-- A `pgconn.CommandTag`, reduced to the affected-row count it reports. -/
structure CommandTag where
  rowsAffected : Int
deriving DecidableEq, Repr

/-- `DBHelper.Exec`: runs the underlying `Exec` of the resolved querier; on
failure returns count 0 and the error wrapped as `exec failed: %w`, on
success the reported affected-row count and no error. -/
def DBHelper.Exec (d : DBHelper) (ctx : Context)
    (querierExec : Pgxhelper.Querier → Except GoError CommandTag) : Int × Option GoError :=
  match querierExec (d.Querier ctx) with
  | .error e => (0, some (.wrap "exec failed: " e))
  | .ok tag => (tag.rowsAffected, none)

/-- `DBHelper.Get`: delegates to the row-mapping collaborator
(`scanAPI.Get`) on the resolved querier and returns its result verbatim. -/
def DBHelper.Get (d : DBHelper) (ctx : Context)
    (scanGet : Pgxhelper.Querier → Option GoError) : Option GoError :=
  scanGet (d.Querier ctx)

/-- `DBHelper.Select`: delegates to the row-mapping collaborator
(`scanAPI.Select`) on the resolved querier and returns its result verbatim. -/
def DBHelper.Select (d : DBHelper) (ctx : Context)
    (scanSelect : Pgxhelper.Querier → Option GoError) : Option GoError :=
  scanSelect (d.Querier ctx)

/-- The distinguished no-rows condition `pgx.ErrNoRows` produced by the
row-mapping collaborator when zero rows match. -/
def ErrNoRows : GoError := .base "no rows in result set"

/-- The SQL text of the liveness catalog query in `DBHelper.Ping`. -/
def pingSQL : String := "SELECT 1 AS result FROM pg_database WHERE datname = $1"

/-- The database name the helper's pool configuration carries
(`d.pool.Config().ConnConfig.Database`). -/
def DBHelper.databaseName (d : DBHelper) : String :=
  match d.pool with
  | some p => p.database
  | none => ""

/-- Outcomes of the driver during a liveness check: whether the pool-level
ping fails, and what each catalog query (SQL text and parameter) yields —
an error, or the number of result rows. -/
structure PingEnv where
  pingErr : Option GoError
  query : String → String → Except GoError Nat

/-- `DBHelper.Ping`: pool-level ping (failure wrapped as
`database ping error: %w`), then the catalog query parameterized by the
configured database name (failure wrapped as `database query failure: %w`);
the returned rows are only closed, never inspected. -/
def DBHelper.Ping (d : DBHelper) (env : PingEnv) : Option GoError :=
  match env.pingErr with
  | some e => some (.wrap "database ping error: " e)
  | none =>
    match env.query pingSQL d.databaseName with
    | .error e => some (.wrap "database query failure: " e)
    | .ok _rows => none

/-- Outcomes of the collaborators during `Connect`: the result of
`pgxpool.ParseConfig`, whether `pgxpool.NewWithConfig` fails (it returns a
nil pool alongside an error), and the driver environment for the liveness
check. -/
structure ConnectEnv where
  parse : Except GoError Config
  newPoolErr : Config → Option GoError
  pingEnv : PingEnv

/-- `DBHelper.Connect`: parses the connection string (failure wrapped as
`parse database config failure: %w`), creates the pool (failure wrapped as
`database pool creation failure: %w`, the pool field taking the nil result
of the failed creation), and on success immediately returns `Ping`'s
result. -/
def DBHelper.Connect (d : DBHelper) (env : ConnectEnv) :
    DBHelper × Option GoError :=
  match env.parse with
  | .error e => (d, some (.wrap "parse database config failure: " e))
  | .ok conf =>
    match env.newPoolErr conf with
    | some e => ({ d with pool := none },
        some (.wrap "database pool creation failure: " e))
    | none =>
      let d' : DBHelper := { d with pool := some { database := conf.database } }
      (d', d'.Ping env.pingEnv)

/-- Modelled from the spec: the external named-query collaborator
(`sqlset.SQLSet`) is "a lookup keyed by a two-part identifier (a set name
and a query name) returning SQL text, failing with a distinguished query
not found condition when the identifier is unknown". -/
abbrev SQLSet := List ((String × String) × String)

/-- Modelled from the spec: the distinguished query-not-found condition of
the named-query collaborator. -/
def ErrQueryNotFound : GoError := .base "query not found"

/-- Modelled from the spec: `sqlSet.Get(setID, queryID)` returns the stored
SQL text, or the distinguished not-found condition when the identifier is
unknown. -/
def SQLSet.Get (s : SQLSet) (setID queryID : String) : Except GoError String :=
  match s.find? (fun kv => kv.fst == (setID, queryID)) with
  | some kv => .ok kv.snd
  | none => .error ErrQueryNotFound

/-- The `sqlsetpgxhelper.DBHelper` wrapper: an embedded `pgxhelper.DBHelper`
plus a SQL set. -/
structure SqlSetDBHelper where
  toDBHelper : DBHelper
  sqlSet : SQLSet

/-- `sqlsetpgxhelper.DBHelper.Exec`: resolves the SQL text through the
lookup, returning `(0, err)` on a lookup failure, and otherwise delegates to
the embedded helper's `Exec`. -/
def SqlSetDBHelper.Exec (d : SqlSetDBHelper) (setID queryID : String)
    (delegate : String → Int × Option GoError) : Int × Option GoError :=
  match d.sqlSet.Get setID queryID with
  | .error e => (0, some e)
  | .ok q => delegate q

/-- `sqlsetpgxhelper.DBHelper.Get`: resolves the SQL text through the
lookup, returning the lookup error on failure, and otherwise delegates to
the embedded helper's `Get`. -/
def SqlSetDBHelper.Get (d : SqlSetDBHelper) (setID queryID : String)
    (delegate : String → Option GoError) : Option GoError :=
  match d.sqlSet.Get setID queryID with
  | .error e => some e
  | .ok q => delegate q

/-- `sqlsetpgxhelper.DBHelper.Select`: resolves the SQL text through the
lookup, returning the lookup error on failure, and otherwise delegates to
the embedded helper's `Select`. -/
def SqlSetDBHelper.Select (d : SqlSetDBHelper) (setID queryID : String)
    (delegate : String → Option GoError) : Option GoError :=
  match d.sqlSet.Get setID queryID with
  | .error e => some e
  | .ok q => delegate q

/-! ## Helper lemmas -/

/-- `errors.Is` always finds the error itself. -/
theorem errorsIs_self (e : GoError) : errorsIs e e = true := by
  cases e with
  | base m => simp [errorsIs]
  | wrap p i => simp [errorsIs]

/-! ## Claim theorems -/

/-- C1: for every context that does not carry a transaction, the resolver
`DBHelper.Querier` returns the helper's pool; for every context carrying an
attached transaction, it returns that transaction as the execution
target. -/
theorem querier_resolution (d : DBHelper) (ctx : Context) :
    (ctxGetTx ctx = none → d.Querier ctx = Querier.pool d.pool) ∧
    (∀ t : Tx, ctxGetTx ctx = some t → d.Querier ctx = Querier.tx t) := by
  constructor
  · intro h
    simp [DBHelper.Querier, h]
  · intro t h
    simp [DBHelper.Querier, h]

/-- Witness for C1 at concrete inputs: the empty context resolves to the
pool, and a context with an attached transaction resolves to it. -/
theorem querier_resolution_witness :
    DBHelper.Querier ⟨some ⟨"db"⟩⟩ [] = Querier.pool (some ⟨"db"⟩) ∧
    DBHelper.Querier ⟨some ⟨"db"⟩⟩ (ctxWithTx [] 7) = Querier.tx 7 :=
  ⟨(querier_resolution ⟨some ⟨"db"⟩⟩ []).1 rfl,
   (querier_resolution ⟨some ⟨"db"⟩⟩ (ctxWithTx [] 7)).2 7 rfl⟩

/-- C2: attaching a transaction yields a context that resolves to that
transaction; the original context is the untouched tail of the new chain,
and the new context is a different value, so attach never mutates its
input. -/
theorem ctx_attach_immutable (d : DBHelper) (c0 : Context) (t : Tx) :
    d.Querier (ctxWithTx c0 t) = Querier.tx t ∧
    (ctxWithTx c0 t).tail = c0 ∧
    ctxWithTx c0 t ≠ c0 ∧
    d.Querier ((ctxWithTx c0 t).tail) = d.Querier c0 :=
  ⟨rfl, rfl, List.cons_ne_self _ _, rfl⟩

/-- C3: calling `WithinTransaction` on a context that already carries a
transaction panics with the fixed message, for every environment, work
function and option list — so no transaction is ever begun and no error is
returned. -/
theorem nested_transaction_panics (d : DBHelper) (env : DBEnv) (ctx : Context)
    (fn : Context → Option GoError) (opt : List TxOptions) (t : Tx)
    (h : ctxGetTx ctx = some t) :
    d.WithinTransaction env ctx fn opt =
      RunResult.panicked "context already contains an unexpected transaction" := by
  simp [DBHelper.WithinTransaction, DBHelper.requireNoTransaction, h]

/-- Witness for C3: a context carrying transaction 5 makes
`WithinTransaction` panic. -/
theorem nested_transaction_panics_witness :
    DBHelper.WithinTransaction ⟨none⟩ ⟨none, 9, none, none⟩ (ctxWithTx [] 5)
      (fun _ => none) [] =
      RunResult.panicked "context already contains an unexpected transaction" :=
  nested_transaction_panics ⟨none⟩ ⟨none, 9, none, none⟩ (ctxWithTx [] 5)
    (fun _ => none) [] 5 rfl

/-- C4: on a transaction-free context with a successful begin, if the work
function returns no error and the commit succeeds the transaction is
committed with no error returned; if the work function returns an error `e`
the transaction is rolled back and exactly `e` is returned, unwrapped, for
every rollback outcome. -/
theorem within_transaction_error_propagation (d : DBHelper) (env : DBEnv)
    (ctx : Context) (fn : Context → Option GoError) (opt : List TxOptions)
    (hc : ctxGetTx ctx = none) (hb : env.beginErr = none) :
    (fn (ctxWithTx ctx env.newTx) = none → env.commitErr = none →
      d.WithinTransaction env ctx fn opt =
        RunResult.returned none TxFate.committed (opt.headD TxOptions.zero)) ∧
    (∀ e : GoError, fn (ctxWithTx ctx env.newTx) = some e →
      d.WithinTransaction env ctx fn opt =
        RunResult.returned (some e) TxFate.rolledBack (opt.headD TxOptions.zero)) := by
  constructor
  · intro hf hcom
    simp [DBHelper.WithinTransaction, DBHelper.requireNoTransaction, hc,
      pgxBeginTxFunc, hb, hf, hcom]
  · intro e hf
    simp [DBHelper.WithinTransaction, DBHelper.requireNoTransaction, hc,
      pgxBeginTxFunc, hb, hf]

/-- Witness for C4: a run whose work succeeds commits and returns no error;
a run whose work fails rolls back and returns exactly that error even
though the rollback call itself fails. -/
theorem within_transaction_error_propagation_witness :
    DBHelper.WithinTransaction ⟨none⟩ ⟨none, 3, none, none⟩ []
      (fun _ => none) [] =
      RunResult.returned none TxFate.committed TxOptions.zero ∧
    DBHelper.WithinTransaction ⟨none⟩ ⟨none, 3, none, some (GoError.base "rb")⟩ []
      (fun _ => some (GoError.base "boom")) [] =
      RunResult.returned (some (GoError.base "boom")) TxFate.rolledBack
        TxOptions.zero :=
  ⟨(within_transaction_error_propagation ⟨none⟩ ⟨none, 3, none, none⟩ []
      (fun _ => none) [] rfl rfl).1 rfl rfl,
   (within_transaction_error_propagation ⟨none⟩
      ⟨none, 3, none, some (GoError.base "rb")⟩ []
      (fun _ => some (GoError.base "boom")) [] rfl rfl).2
      (GoError.base "boom") rfl⟩

/-- C5: when the underlying exec call fails with `e`, `DBHelper.Exec`
returns count 0 and the error wrapped as `exec failed: %w`, whose message
starts with the stable text and through which `errors.Is` still reaches
`e`; on success it returns the engine-reported count and no error. -/
theorem exec_wrap_and_count (d : DBHelper) (ctx : Context)
    (querierExec : Pgxhelper.Querier → Except GoError CommandTag) :
    (∀ e : GoError, querierExec (d.Querier ctx) = .error e →
      d.Exec ctx querierExec = (0, some (GoError.wrap "exec failed: " e)) ∧
      (GoError.wrap "exec failed: " e).message = "exec failed: " ++ e.message ∧
      errorsIs (GoError.wrap "exec failed: " e) e = true) ∧
    (∀ tag : CommandTag, querierExec (d.Querier ctx) = .ok tag →
      d.Exec ctx querierExec = (tag.rowsAffected, none)) := by
  constructor
  · intro e he
    refine ⟨?_, rfl, ?_⟩
    · simp [DBHelper.Exec, he]
    · simp [errorsIs, errorsIs_self]
  · intro tag ht
    simp [DBHelper.Exec, ht]

/-- Witness for C5: a duplicate-key failure yields count 0 and the wrapped
error still matching the underlying one; a successful exec yields the
reported count 1. -/
theorem exec_wrap_and_count_witness :
    DBHelper.Exec ⟨some ⟨"db"⟩⟩ [] (fun _ => .error (GoError.base "dup key")) =
      (0, some (GoError.wrap "exec failed: " (GoError.base "dup key"))) ∧
    errorsIs (GoError.wrap "exec failed: " (GoError.base "dup key"))
      (GoError.base "dup key") = true ∧
    DBHelper.Exec ⟨some ⟨"db"⟩⟩ [] (fun _ => .ok ⟨1⟩) = (1, none) :=
  ⟨((exec_wrap_and_count ⟨some ⟨"db"⟩⟩ []
      (fun _ => .error (GoError.base "dup key"))).1 (GoError.base "dup key") rfl).1,
   ((exec_wrap_and_count ⟨some ⟨"db"⟩⟩ []
      (fun _ => .error (GoError.base "dup key"))).1 (GoError.base "dup key") rfl).2.2,
   (exec_wrap_and_count ⟨some ⟨"db"⟩⟩ [] (fun _ => .ok ⟨1⟩)).2 ⟨1⟩ rfl⟩

/-- C6: on a fresh helper, a parse failure returns the wrapped parse error
with the pool field still nil; a pool-creation failure returns the wrapped
creation error with the pool field nil; on creation success `Connect`
installs the pool and immediately returns the liveness check's result. -/
theorem connect_failure_no_partial_state (d : DBHelper) (env : ConnectEnv)
    (hd : d.pool = none) :
    (∀ e : GoError, env.parse = .error e →
      d.Connect env =
        (d, some (GoError.wrap "parse database config failure: " e)) ∧
      (d.Connect env).1.pool = none) ∧
    (∀ (conf : Config) (e : GoError), env.parse = .ok conf →
      env.newPoolErr conf = some e →
      d.Connect env = ({ d with pool := none },
        some (GoError.wrap "database pool creation failure: " e)) ∧
      (d.Connect env).1.pool = none) ∧
    (∀ conf : Config, env.parse = .ok conf → env.newPoolErr conf = none →
      d.Connect env =
        ({ d with pool := some { database := conf.database } },
         DBHelper.Ping { d with pool := some { database := conf.database } }
           env.pingEnv)) := by
  refine ⟨?_, ?_, ?_⟩
  · intro e he
    constructor
    · simp [DBHelper.Connect, he]
    · simp [DBHelper.Connect, he, hd]
  · intro conf e hp hn
    constructor
    · simp [DBHelper.Connect, hp, hn]
    · simp [DBHelper.Connect, hp, hn]
  · intro conf hp hn
    simp [DBHelper.Connect, hp, hn]

/-- Witness for C6: on a fresh helper a failing parse leaves the pool field
nil and returns the wrapped error. -/
theorem connect_failure_no_partial_state_witness :
    DBHelper.Connect ⟨none⟩
      ⟨.error (GoError.base "bad dsn"), fun _ => none, ⟨none, fun _ _ => .ok 1⟩⟩ =
      (⟨none⟩,
       some (GoError.wrap "parse database config failure: "
         (GoError.base "bad dsn"))) :=
  ((connect_failure_no_partial_state ⟨none⟩
      ⟨.error (GoError.base "bad dsn"), fun _ => none, ⟨none, fun _ _ => .ok 1⟩⟩
      rfl).1 (GoError.base "bad dsn") rfl).1

/-- C7 counterexample: with a working driver whose catalog query succeeds
but returns zero rows — the configured name `mydb` matching no database —
`Ping` still returns no error, so it does not confirm that the database is
named correctly. -/
theorem ping_ignores_catalog_rows :
    DBHelper.Ping ⟨some ⟨"mydb"⟩⟩ ⟨none, fun _ _ => .ok 0⟩ = none := rfl

/-- C7 (amended): `Ping` issues the driver-level ping (failure wrapped as
`database ping error: %w`) and then the catalog query parameterized by the
configured database name (failure wrapped as `database query failure: %w`),
never panicking; when both succeed it returns no error regardless of how
many rows the catalog query found, so reachability is verified but
name-correctness is not. -/
theorem ping_behavior (d : DBHelper) (env : PingEnv) :
    (∀ e : GoError, env.pingErr = some e →
      d.Ping env = some (GoError.wrap "database ping error: " e)) ∧
    (∀ e : GoError, env.pingErr = none →
      env.query pingSQL d.databaseName = .error e →
      d.Ping env = some (GoError.wrap "database query failure: " e)) ∧
    (∀ n : Nat, env.pingErr = none →
      env.query pingSQL d.databaseName = .ok n →
      d.Ping env = none) := by
  refine ⟨?_, ?_, ?_⟩
  · intro e he
    simp [DBHelper.Ping, he]
  · intro e hp hq
    simp [DBHelper.Ping, hp, hq]
  · intro n hp hq
    simp [DBHelper.Ping, hp, hq]

/-- Witness for C7 (amended): a failing ping is reported wrapped; a failing
catalog query is reported wrapped; a succeeding round-trip with one row
reports no error. -/
theorem ping_behavior_witness :
    DBHelper.Ping ⟨some ⟨"mydb"⟩⟩ ⟨some (GoError.base "down"), fun _ _ => .ok 1⟩ =
      some (GoError.wrap "database ping error: " (GoError.base "down")) ∧
    DBHelper.Ping ⟨some ⟨"mydb"⟩⟩ ⟨none, fun _ _ => .error (GoError.base "net")⟩ =
      some (GoError.wrap "database query failure: " (GoError.base "net")) ∧
    DBHelper.Ping ⟨some ⟨"mydb"⟩⟩ ⟨none, fun _ _ => .ok 1⟩ = none :=
  ⟨(ping_behavior ⟨some ⟨"mydb"⟩⟩ ⟨some (GoError.base "down"), fun _ _ => .ok 1⟩).1
      (GoError.base "down") rfl,
   (ping_behavior ⟨some ⟨"mydb"⟩⟩
      ⟨none, fun _ _ => .error (GoError.base "net")⟩).2.1 (GoError.base "net") rfl rfl,
   (ping_behavior ⟨some ⟨"mydb"⟩⟩ ⟨none, fun _ _ => .ok 1⟩).2.2 1 rfl rfl⟩

/-- C8: for an unregistered (set name, query name) pair, the named-query
variant's `Exec` returns count 0 and the distinguished not-found condition,
and `Get` and `Select` return that condition, each for every possible
delegate — so no database round-trip takes place. -/
theorem named_query_not_found (d : SqlSetDBHelper) (setID queryID : String)
    (h : d.sqlSet.find? (fun kv => kv.fst == (setID, queryID)) = none) :
    (∀ delegate : String → Int × Option GoError,
      d.Exec setID queryID delegate = (0, some ErrQueryNotFound)) ∧
    (∀ delegate : String → Option GoError,
      d.Get setID queryID delegate = some ErrQueryNotFound) ∧
    (∀ delegate : String → Option GoError,
      d.Select setID queryID delegate = some ErrQueryNotFound) := by
  have hg : d.sqlSet.Get setID queryID = .error ErrQueryNotFound := by
    simp [SQLSet.Get, h]
  refine ⟨?_, ?_, ?_⟩ <;> intro delegate
  · simp [SqlSetDBHelper.Exec, hg]
  · simp [SqlSetDBHelper.Get, hg]
  · simp [SqlSetDBHelper.Select, hg]

/-- Witness for C8: looking up an unregistered query name in a one-entry
set returns count 0 and the not-found condition, for a delegate that would
otherwise report 42 affected rows. -/
theorem named_query_not_found_witness :
    SqlSetDBHelper.Exec ⟨⟨none⟩, [(("s", "q"), "SELECT 1")]⟩ "s" "missing"
      (fun _ => (42, none)) = (0, some ErrQueryNotFound) :=
  (named_query_not_found ⟨⟨none⟩, [(("s", "q"), "SELECT 1")]⟩ "s" "missing"
      (by simp)).1 (fun _ => (42, none))

/-- C9: `DBHelper.Get` returns the row-mapping collaborator's result
verbatim; in particular a no-rows condition comes back exactly as produced,
neither wrapped nor reinterpreted. -/
theorem get_propagates_no_rows (d : DBHelper) (ctx : Context)
    (scanGet : Pgxhelper.Querier → Option GoError) (e : GoError)
    (h : scanGet (d.Querier ctx) = some e) :
    d.Get ctx scanGet = some e := by
  simpa [DBHelper.Get] using h

/-- Witness for C9: a collaborator reporting `pgx.ErrNoRows` makes `Get`
return exactly that condition. -/
theorem get_propagates_no_rows_witness :
    DBHelper.Get ⟨some ⟨"db"⟩⟩ [] (fun _ => some ErrNoRows) = some ErrNoRows :=
  get_propagates_no_rows ⟨some ⟨"db"⟩⟩ [] (fun _ => some ErrNoRows) ErrNoRows rfl

/-- C10: on a transaction-free context, `WithinTransaction` begins with the
zero-value options when none are supplied, and with exactly the first
supplied option value otherwise, the remaining ones being ignored. -/
theorem within_transaction_option_choice (d : DBHelper) (env : DBEnv)
    (ctx : Context) (fn : Context → Option GoError)
    (hc : ctxGetTx ctx = none) :
    (d.WithinTransaction env ctx fn [] =
      pgxBeginTxFunc env TxOptions.zero (fun tx => fn (ctxWithTx ctx tx))) ∧
    (∀ (o : TxOptions) (rest : List TxOptions),
      d.WithinTransaction env ctx fn (o :: rest) =
        pgxBeginTxFunc env o (fun tx => fn (ctxWithTx ctx tx))) := by
  constructor
  · simp [DBHelper.WithinTransaction, DBHelper.requireNoTransaction, hc]
  · intro o rest
    simp [DBHelper.WithinTransaction, DBHelper.requireNoTransaction, hc]

/-- Witness for C10: with two supplied option values the run records the
first one as the options given to begin, ignoring the second. -/
theorem within_transaction_option_choice_witness :
    DBHelper.WithinTransaction ⟨none⟩ ⟨none, 3, none, none⟩ [] (fun _ => none)
      [⟨"serializable", "", "", "", ""⟩, ⟨"x", "x", "x", "x", "x"⟩] =
      RunResult.returned none TxFate.committed
        ⟨"serializable", "", "", "", ""⟩ := by
  have h := (within_transaction_option_choice ⟨none⟩ ⟨none, 3, none, none⟩ []
      (fun _ => none) rfl).2 ⟨"serializable", "", "", "", ""⟩
      [⟨"x", "x", "x", "x", "x"⟩]
  rw [h]
  rfl

end Pgxhelper
